import Mathlib

/-!
# Pending-request tracking of the traumfunke client

A shallow embedding of the generation-progress / pending-request tracking
mechanism of the traumfunke app: the home screen's pending-request view
(`src/app/(app)/(tabs)/home.tsx`) and the generating screen's
kickoff-on-first-load logic (`src/unnamed/part_000`, the `GeneratingScreen`
component).

The remote store (Supabase) evaluates the client's queries server-side; we
embed each query as a pure function of the table contents it filters, and
each React state update (`setPendingRequests`, `setRequest`, the
`hasStartedGeneration` ref) as explicit state passing.  The JavaScript code
is single-threaded and every check-and-set of the `hasStartedGeneration`
ref happens synchronously (no `await` between check and set), so a
callback invocation is one atomic step; concurrency of push events, focus
events and reloads is modelled as an arbitrary interleaving of such steps.
-/

namespace Traumfunke

/-- The story-request status values appearing in the client
(`STATUS_CONFIG` in the generating screen lists exactly these eight). -/
inductive StoryStatus where
  | pending
  | queued
  | processing
  | generating_text
  | generating_images
  | rendering_clips
  | finished
  | failed
deriving DecidableEq, Repr

/-- A row of the `story_requests` table, with the fields the tracking
code reads or writes.  `created_at` is an epoch timestamp in
milliseconds (the code compares ISO timestamps, which order exactly as
their epoch values do). -/
structure StoryRequest where
  id : String
  user_id : String
  status : StoryStatus
  created_at : Int
  error_message : Option String
  is_episode : Bool
  episode_number : Option Nat
deriving DecidableEq, Repr

/-- `10 * 60 * 1000` ms: the visibility window of
`loadPendingRequests` (`const tenMinutesAgo = new Date(Date.now() - 10 *
60 * 1000)`). -/
def visibilityWindowMs : Int := 10 * 60 * 1000

/-- The status filter of the home screen's pending query:
`.in('status', ['queued', 'generating_text', 'generating_images',
'rendering_clips'])`. -/
def pendingStatusFilter : List StoryStatus :=
  [.queued, .generating_text, .generating_images, .rendering_clips]

/-- The ordering requested by `.order('created_at', { ascending: false })`:
newest first. -/
def newestFirst (a b : StoryRequest) : Bool :=
  decide (b.created_at ≤ a.created_at)

/-- The server-side evaluation of the home screen's pending query
(`home.tsx`, `loadPendingRequests`): rows of the current user whose
status is in `pendingStatusFilter` and whose `created_at` is at least
`now - visibilityWindowMs` (`.gte('created_at', tenMinutesAgo)`),
ordered newest-first. -/
def pendingRequestsQuery (userId : String) (now : Int)
    (table : List StoryRequest) : List StoryRequest :=
  (table.filter fun r =>
    decide (r.user_id = userId ∧ r.status ∈ pendingStatusFilter ∧
      now - visibilityWindowMs ≤ r.created_at)).mergeSort newestFirst

/-- An entry of the home screen's `pendingRequests` state: either the
optimistic placeholder `{ id, status: 'queued', is_episode: false }`
inserted by the wizard-store effect, or a full row delivered by the
pending query. -/
inductive ViewEntry where
  | placeholder (requestId : String)
  | row (r : StoryRequest)
deriving DecidableEq, Repr

/-- The request id of a view entry (`r.id` in the filters of the home
screen's state updates). -/
def ViewEntry.rid : ViewEntry → String
  | .placeholder requestId => requestId
  | .row r => r.id

/-- Result of one tracked-view state update: the new `pendingRequests`
state and the alert shown, if any (`Alert.alert` is the only blocking
surface used by this code). -/
structure ViewUpdate where
  view : List ViewEntry
  alert : Option String
deriving DecidableEq, Repr

/-- `loadPendingRequests` of the home screen, as a state update.
`remote` is the outcome of the Supabase read: on success the full table
reaches the query, on a read error the code hits `setPendingRequests([])`
(both the `if (error)` branch and the `catch` branch) and only logs —
no alert.  The previous view is overwritten in every branch. -/
def loadPendingRequests (userId : String) (now : Int)
    (remote : Except String (List StoryRequest))
    (prevView : List ViewEntry) : ViewUpdate :=
  match remote with
  | .ok table => ⟨(pendingRequestsQuery userId now table).map .row, none⟩
  | .error _ => ⟨[], none⟩

/-- The optimistic insert of the wizard-store effect (`home.tsx`):
`setPendingRequests(prev => [{ id, status: 'queued', is_episode: false },
...prev.filter(r => r.id !== newPendingRequestId)])`. -/
def trackNewRequest (requestId : String) (prev : List ViewEntry) :
    List ViewEntry :=
  .placeholder requestId :: prev.filter fun e => decide ¬(e.rid = requestId)

/-- `handleCancelRequest`'s confirmed branch (`home.tsx`): delete the row
remotely; on a delete error the `catch` shows the alert and the view is
untouched; on success the entry is filtered out locally
(`setPendingRequests(prev => prev.filter(r => r.id !== requestId))`). -/
def handleCancelRequest (prev : List ViewEntry) (requestId : String)
    (deleteError : Option String) : ViewUpdate :=
  match deleteError with
  | some _ => ⟨prev, some "Konnte nicht abgebrochen werden."⟩
  | none => ⟨prev.filter fun e => decide ¬(e.rid = requestId), none⟩

/-! ## The generating screen (`GeneratingScreen`, `src/unnamed/part_000`)

`loadRequest` runs on mount, on every focus event, and after each push;
the realtime subscription callback only does `setRequest(payload.new)`.
The `hasStartedGeneration` ref guards the single invocation of the
`create-story` edge function. -/

/-- The component-local state of the generating screen: the `request`
React state, the `hasStartedGeneration` ref, and (for specification
purposes) how many times `startStoryGeneration` has been invoked in this
component lifetime. -/
structure GenState where
  request : Option StoryRequest
  hasStartedGeneration : Bool
  startCount : Nat
deriving DecidableEq, Repr

/-- The state at mount: `useState(null)`, `useRef(false)`, no invocation
yet. -/
def GenState.init : GenState := ⟨none, false, 0⟩

/-- `loadRequest` of the generating screen: store the fetched row (if the
`.single()` read returned one), and if its status is `queued` and the
`hasStartedGeneration` ref is still false, set the ref and invoke
`startStoryGeneration`.  The ref check, the ref write and the call are
synchronous (no `await` between them), so the whole update is one atomic
step of the event loop. -/
def loadRequest (s : GenState) (data : Option StoryRequest) : GenState :=
  match data with
  | none => s
  | some r =>
      if r.status = .queued ∧ s.hasStartedGeneration = false then
        ⟨some r, true, s.startCount + 1⟩
      else
        ⟨some r, s.hasStartedGeneration, s.startCount⟩

/-- The events that can reach the generating screen's state in one
component lifetime, in any interleaving: a `loadRequest` completion
(mount, focus, or scheduled reload) or a realtime push payload
(`setRequest(payload.new)` only — a push never touches the ref). -/
inductive GenEvent where
  | load (data : Option StoryRequest)
  | push (r : StoryRequest)
deriving DecidableEq, Repr

/-- One atomic step of the generating screen's event loop. -/
def genStep (s : GenState) : GenEvent → GenState
  | .load data => loadRequest s data
  | .push r => ⟨some r, s.hasStartedGeneration, s.startCount⟩

/-! ## `startStoryGeneration` (`src/unnamed/part_000`) -/

/-- The outcome of `supabase.functions.invoke('create-story', ...)` as the
client observes it: resolved without error, resolved with an `error`
object (carrying `name` and `message`), or rejected/thrown (an `any`
value whose `name` and `message` properties may each be absent). -/
inductive InvokeOutcome where
  | ok
  | errorResult (name message : String)
  | thrown (name message : Option String)
deriving DecidableEq, Repr

/-- The externally visible actions `startStoryGeneration` performs, in
order: an `update` on the request's row (with the fields it sets) or the
edge-function invocation itself. -/
inductive ClientAction where
  | updateRow (status : StoryStatus) (errorMessage : Option String)
  | invokeCreateStory
deriving DecidableEq, Repr

/-- JavaScript `String.prototype.includes`: substring containment. -/
def jsIncludes (s sub : String) : Bool :=
  decide (sub.toList <:+: s.toList)

/-- JavaScript `x || fallback` on an optional string: `undefined` and the
empty string are falsy. -/
def jsOrElse (s : Option String) (fallback : String) : String :=
  match s with
  | some m => if m = "" then fallback else m
  | none => fallback

/-- The timeout test of the `catch` branch:
`error?.name === 'FunctionsFetchError' ||
error?.message?.includes('Failed to send')`. -/
def isTimeoutThrown (name message : Option String) : Bool :=
  name == some "FunctionsFetchError" ||
    (match message with
     | some m => jsIncludes m "Failed to send"
     | none => false)

/-- `startStoryGeneration`, as the sequence of actions it performs for a
given invocation outcome.  It first writes `{ status: 'processing' }` to
the row, then invokes the edge function; a resolved `error` named
`FunctionsFetchError` is only logged, any other resolved error writes
`{ status: 'failed', error_message: error.message }`; a thrown error
passing `isTimeoutThrown` is only logged, any other thrown error writes
`{ status: 'failed', error_message: error.message || 'Unbekannter
Fehler' }`. -/
def startStoryGeneration (outcome : InvokeOutcome) : List ClientAction :=
  .updateRow .processing none :: .invokeCreateStory ::
  match outcome with
  | .ok => []
  | .errorResult name message =>
      if name = "FunctionsFetchError" then []
      else [.updateRow .failed (some message)]
  | .thrown name message =>
      if isTimeoutThrown name message then []
      else [.updateRow .failed (some (jsOrElse message "Unbekannter Fehler"))]

/-- Whether the outcome is a transport-level timeout (the cases the code
deliberately ignores). -/
def isTimeoutOutcome : InvokeOutcome → Bool
  | .ok => false
  | .errorResult name _ => name == "FunctionsFetchError"
  | .thrown name message => isTimeoutThrown name message

/-- Whether the outcome is a hard (non-timeout) invocation error. -/
def isHardError : InvokeOutcome → Bool
  | .ok => false
  | .errorResult name _ => !(name == "FunctionsFetchError")
  | .thrown name message => !(isTimeoutThrown name message)

/-- The message the failure path records for a hard error:
`error.message` on the resolved-error branch, `error.message ||
'Unbekannter Fehler'` on the thrown branch. -/
def hardErrorMessage : InvokeOutcome → String
  | .ok => ""
  | .errorResult _ message => message
  | .thrown _ message => jsOrElse message "Unbekannter Fehler"

/-- The effect of one client action on the request's row: `update` sets
the listed fields and leaves the others, the invocation touches no row. -/
def applyAction (r : StoryRequest) : ClientAction → StoryRequest
  | .updateRow st msg =>
      { r with status := st,
               error_message := match msg with
                 | some m => some m
                 | none => r.error_message }
  | .invokeCreateStory => r

/-- The generating screen's failure surface: `isFailed = request?.status
=== 'failed'` drives the ❌ icon, the failed label and the error
container. -/
def viewShowsFailure (r : StoryRequest) : Bool :=
  decide (r.status = .failed)

/-! ## The tracked-view operations as a transition system (`home.tsx`)

The home screen's `pendingRequests` state is only ever written by three
updaters: the wizard-store optimistic insert, `loadPendingRequests`, and
`handleCancelRequest`'s success branch.  React state updates run one at a
time on the UI thread, so a run of the component is a sequence of these
operations applied to the initial state `useState([])`. -/

/-- One tracked-view operation. -/
inductive TrackerOp where
  | track (requestId : String)
  | reconcile (userId : String) (now : Int)
      (remote : Except String (List StoryRequest))
  | cancel (requestId : String) (deleteError : Option String)
deriving Repr

/-- The state update each operation performs on `pendingRequests`. -/
def applyOp (v : List ViewEntry) : TrackerOp → List ViewEntry
  | .track requestId => trackNewRequest requestId v
  | .reconcile userId now remote => (loadPendingRequests userId now remote v).view
  | .cancel requestId deleteError => (handleCancelRequest v requestId deleteError).view

/-- Well-formedness of an operation's remote input: a successful read of
the `story_requests` table returns rows keyed by the primary key `id`,
so their ids are pairwise distinct.  The other operations need nothing. -/
def opWF : TrackerOp → Bool
  | .reconcile _ _ (.ok table) => decide (table.map StoryRequest.id).Nodup
  | _ => true

/-! ## Helper lemmas -/

/-- Membership in the pending query result: exactly the user's rows with
status in the filter list and `created_at` inside the window. -/
theorem mem_pendingRequestsQuery {userId : String} {now : Int}
    {table : List StoryRequest} {r : StoryRequest} :
    r ∈ pendingRequestsQuery userId now table ↔
      r ∈ table ∧ r.user_id = userId ∧ r.status ∈ pendingStatusFilter ∧
        now - visibilityWindowMs ≤ r.created_at := by
  unfold pendingRequestsQuery
  rw [List.mem_mergeSort, List.mem_filter, decide_eq_true_iff]

/-- The pending query result is ordered newest-first. -/
theorem pendingRequestsQuery_sorted (userId : String) (now : Int)
    (table : List StoryRequest) :
    (pendingRequestsQuery userId now table).Pairwise
      (fun a b => b.created_at ≤ a.created_at) := by
  have htrans : ∀ a b c : StoryRequest, newestFirst a b = true →
      newestFirst b c = true → newestFirst a c = true := by
    intro a b c hab hbc
    simp only [newestFirst, decide_eq_true_iff] at *
    exact le_trans hbc hab
  have htotal : ∀ a b : StoryRequest,
      (newestFirst a b || newestFirst b a) = true := by
    intro a b
    simp only [newestFirst, Bool.or_eq_true, decide_eq_true_iff]
    exact le_total b.created_at a.created_at
  have h := List.sorted_mergeSort htrans htotal
    (table.filter fun r =>
      decide (r.user_id = userId ∧ r.status ∈ pendingStatusFilter ∧
        now - visibilityWindowMs ≤ r.created_at))
  exact h.imp fun hab => by
    simpa only [newestFirst, decide_eq_true_iff] using hab

/-! ## Claims about reconciliation -/

/-- C2, counterexample: the claim includes status `processing` in the
non-terminal filter set, but the query's `.in('status', ...)` list does
not contain `'processing'` — a request of the current user in status
`processing`, created exactly now (well inside the window), is absent
from the reconciled view. -/
theorem processing_absent_from_pending_query :
    pendingRequestsQuery "u1" 600000
      [⟨"r1", "u1", .processing, 600000, none, false, none⟩] = [] := by
  have h : ([⟨"r1", "u1", .processing, 600000, none, false, none⟩] :
      List StoryRequest).filter (fun r =>
        decide (r.user_id = "u1" ∧ r.status ∈ pendingStatusFilter ∧
          (600000 : Int) - visibilityWindowMs ≤ r.created_at)) = [] := by decide
  unfold pendingRequestsQuery
  rw [h, List.mergeSort_nil]

/-- C2, amended: `reconcileFromRemote` replaces the tracked view with
exactly those requests of the current user whose status lies in the set
{queued, generating_text, generating_images, rendering_clips} — the
status `processing` is not in the filter and such a request does not
appear — and whose creation timestamp is within the visibility window,
ordered newest-first. -/
theorem reconcileFromRemote_spec (userId : String) (now : Int)
    (table : List StoryRequest) (prevView : List ViewEntry) :
    (∀ r : StoryRequest,
      ViewEntry.row r ∈ (loadPendingRequests userId now (.ok table) prevView).view ↔
        r ∈ table ∧ r.user_id = userId ∧
          (r.status = .queued ∨ r.status = .generating_text ∨
            r.status = .generating_images ∨ r.status = .rendering_clips) ∧
          now - visibilityWindowMs ≤ r.created_at) ∧
    (pendingRequestsQuery userId now table).Pairwise
      (fun a b => b.created_at ≤ a.created_at) := by
  refine ⟨fun r => ?_, pendingRequestsQuery_sorted userId now table⟩
  have hmem : ViewEntry.row r ∈ (loadPendingRequests userId now (.ok table) prevView).view ↔
      r ∈ pendingRequestsQuery userId now table := by
    simp [loadPendingRequests]
  rw [hmem, mem_pendingRequestsQuery]
  simp [pendingStatusFilter]

/-- C3: after a successful reconciliation every entry of the tracked view
is a remote row whose `created_at` lies within the 10-minute visibility
window; on a failed read the view is empty, so in all cases no entry
older than the window survives a reconciliation. -/
theorem reconcile_within_window (userId : String) (now : Int)
    (remote : Except String (List StoryRequest)) (prevView : List ViewEntry)
    (e : ViewEntry)
    (he : e ∈ (loadPendingRequests userId now remote prevView).view) :
    ∃ r : StoryRequest, e = .row r ∧ now - visibilityWindowMs ≤ r.created_at := by
  cases remote with
  | error msg => simp [loadPendingRequests] at he
  | ok table =>
      simp only [loadPendingRequests, List.mem_map] at he
      obtain ⟨r, hr, rfl⟩ := he
      exact ⟨r, rfl, (mem_pendingRequestsQuery.mp hr).2.2.2⟩

/-- Witness for C3 at a concrete reconciliation: a queued row created at
the query instant is in the view and is within the window. -/
theorem reconcile_within_window_witness :
    ∃ r : StoryRequest,
      ViewEntry.row ⟨"r1", "u1", .queued, 600000, none, false, none⟩ = .row r ∧
        (600000 : Int) - visibilityWindowMs ≤ r.created_at :=
  reconcile_within_window "u1" 600000
    (.ok [⟨"r1", "u1", .queued, 600000, none, false, none⟩]) []
    (.row ⟨"r1", "u1", .queued, 600000, none, false, none⟩)
    (List.mem_map_of_mem ViewEntry.row
      (mem_pendingRequestsQuery.mpr
        ⟨List.mem_singleton.mpr rfl, rfl, by decide, by decide⟩))

/-- C7, counterexample: the claim says a remote read failure leaves the
tracked view unchanged, but the error branch executes
`setPendingRequests([])` — with one tracked entry before the failing
reconciliation, the view afterwards differs from the previous view. -/
theorem reconcile_error_mutates_view :
    (loadPendingRequests "u1" 600000 (.error "network error")
      [.placeholder "r1"]).view ≠ [.placeholder "r1"] := by
  decide

/-- C7, amended: when the reconciliation read fails, the tracked view is
cleared (set to the empty list) rather than left unchanged, and the
error is only logged — no alert is surfaced. -/
theorem reconcile_error_clears_and_no_alert (userId : String) (now : Int)
    (msg : String) (prevView : List ViewEntry) :
    loadPendingRequests userId now (.error msg) prevView = ⟨[], none⟩ := rfl

/-! ## Claims about the start-generation guard -/

/-- One event step preserves the start-guard invariant: the invocation
count never exceeds what the `hasStartedGeneration` ref permits. -/
theorem genStep_startInv {s : GenState}
    (h : s.startCount ≤ if s.hasStartedGeneration then 1 else 0)
    (e : GenEvent) :
    (genStep s e).startCount ≤
      if (genStep s e).hasStartedGeneration then 1 else 0 := by
  cases e with
  | push r => simpa [genStep] using h
  | load data =>
      cases data with
      | none => simpa [genStep, loadRequest] using h
      | some r =>
          by_cases hc : r.status = .queued ∧ s.hasStartedGeneration = false
          · rw [hc.2] at h
            simp only [genStep, loadRequest, if_pos hc]
            simpa using h
          · simpa [genStep, loadRequest, if_neg hc] using h

/-- The invariant holds after any event sequence from an invariant
state. -/
theorem foldl_genStep_startInv (evs : List GenEvent) :
    ∀ s : GenState, s.startCount ≤ (if s.hasStartedGeneration then 1 else 0) →
      (evs.foldl genStep s).startCount ≤
        if (evs.foldl genStep s).hasStartedGeneration then 1 else 0 := by
  induction evs with
  | nil => intro s h; simpa using h
  | cons e evs ih =>
      intro s h
      exact ih (genStep s e) (genStep_startInv h e)

/-- C1: within one lifetime of the generating screen, any interleaving of
load completions and push payloads invokes the external start operation
at most once — the ref is set in the same atomic step that counts the
invocation, so a later step (even one racing in from a push-triggered
reload) sees the marker and performs no invocation. -/
theorem maybeStartGeneration_atMostOnce (evs : List GenEvent) :
    (evs.foldl genStep GenState.init).startCount ≤ 1 := by
  have h := foldl_genStep_startInv evs GenState.init (by simp [GenState.init])
  exact h.trans (by split <;> simp)

/-- C8: `loadRequest` never invokes the start operation for a request
whose loaded status is not `queued` — in particular never for the
terminal statuses `finished` and `failed`; the invocation count and the
started marker are untouched. -/
theorem no_start_unless_queued (s : GenState) (r : StoryRequest)
    (h : r.status ≠ .queued) :
    (loadRequest s (some r)).startCount = s.startCount ∧
      (loadRequest s (some r)).hasStartedGeneration = s.hasStartedGeneration := by
  have hc : ¬(r.status = .queued ∧ s.hasStartedGeneration = false) :=
    fun hand => h hand.1
  simp [loadRequest, if_neg hc]

/-- Witness for C8 at the terminal status `finished`, from the initial
state. -/
theorem no_start_unless_queued_witness :
    (loadRequest GenState.init
        (some ⟨"r1", "u1", .finished, 0, none, false, none⟩)).startCount =
      GenState.init.startCount ∧
    (loadRequest GenState.init
        (some ⟨"r1", "u1", .finished, 0, none, false, none⟩)).hasStartedGeneration =
      GenState.init.hasStartedGeneration :=
  no_start_unless_queued GenState.init
    ⟨"r1", "u1", .finished, 0, none, false, none⟩ (by decide)

/-! ## Claims about the invocation's error handling -/

/-- C5: a transport-level timeout of the `create-story` invocation is
treated exactly like success: `startStoryGeneration` performs the same
actions as on the success path (the optimistic `processing` write before
the invocation, and nothing after it), so the timeout itself causes no
status change, the row is left at the in-flight status `processing` with
its error message untouched, and the generating screen surfaces no
failure. -/
theorem timeout_not_an_error (outcome : InvokeOutcome) (r : StoryRequest)
    (h : isTimeoutOutcome outcome = true) :
    startStoryGeneration outcome = startStoryGeneration .ok ∧
    ((startStoryGeneration outcome).foldl applyAction r).status = .processing ∧
    ((startStoryGeneration outcome).foldl applyAction r).error_message =
      r.error_message ∧
    viewShowsFailure ((startStoryGeneration outcome).foldl applyAction r) =
      false := by
  have heq : startStoryGeneration outcome = startStoryGeneration .ok := by
    cases outcome with
    | ok => rfl
    | errorResult name message =>
        simp only [isTimeoutOutcome, beq_iff_eq] at h
        simp [startStoryGeneration, if_pos h]
    | thrown name message =>
        simp only [isTimeoutOutcome] at h
        simp [startStoryGeneration, if_pos h]
  rw [heq]
  exact ⟨rfl, rfl, rfl, rfl⟩

/-- Witness for C5: a resolved `FunctionsFetchError`, on a freshly
queued row. -/
theorem timeout_not_an_error_witness :
    startStoryGeneration (.errorResult "FunctionsFetchError" "timed out") =
      startStoryGeneration .ok ∧
    ((startStoryGeneration (.errorResult "FunctionsFetchError" "timed out")).foldl
        applyAction ⟨"r1", "u1", .queued, 600000, none, false, none⟩).status =
      .processing ∧
    ((startStoryGeneration (.errorResult "FunctionsFetchError" "timed out")).foldl
        applyAction ⟨"r1", "u1", .queued, 600000, none, false, none⟩).error_message =
      (StoryRequest.mk "r1" "u1" .queued 600000 none false none).error_message ∧
    viewShowsFailure
      ((startStoryGeneration (.errorResult "FunctionsFetchError" "timed out")).foldl
        applyAction ⟨"r1", "u1", .queued, 600000, none, false, none⟩) = false :=
  timeout_not_an_error (.errorResult "FunctionsFetchError" "timed out")
    ⟨"r1", "u1", .queued, 600000, none, false, none⟩ (by decide)

/-- C6: every non-timeout invocation error makes the client write status
`failed` together with the error's message to the request's row (after
the optimistic `processing` write and the single invocation — no retry
is performed), and the resulting row is surfaced as failed by the
tracked view. -/
theorem hard_error_writes_failed (outcome : InvokeOutcome) (r : StoryRequest)
    (h : isHardError outcome = true) :
    startStoryGeneration outcome =
      [.updateRow .processing none, .invokeCreateStory,
        .updateRow .failed (some (hardErrorMessage outcome))] ∧
    (startStoryGeneration outcome).count .invokeCreateStory = 1 ∧
    ((startStoryGeneration outcome).foldl applyAction r).status = .failed ∧
    ((startStoryGeneration outcome).foldl applyAction r).error_message =
      some (hardErrorMessage outcome) ∧
    viewShowsFailure ((startStoryGeneration outcome).foldl applyAction r) =
      true := by
  have heq : startStoryGeneration outcome =
      [.updateRow .processing none, .invokeCreateStory,
        .updateRow .failed (some (hardErrorMessage outcome))] := by
    cases outcome with
    | ok => simp [isHardError] at h
    | errorResult name message =>
        simp only [isHardError, Bool.not_eq_true', beq_eq_false_iff_ne,
          ne_eq] at h
        simp [startStoryGeneration, hardErrorMessage, if_neg h]
    | thrown name message =>
        simp only [isHardError, Bool.not_eq_true'] at h
        simp [startStoryGeneration, hardErrorMessage, h]
  rw [heq]
  refine ⟨rfl, by simp [List.count_cons, List.count_nil], rfl, rfl, rfl⟩

/-- Witness for C6: a resolved error that is not a `FunctionsFetchError`,
on a freshly queued row. -/
theorem hard_error_writes_failed_witness :
    startStoryGeneration (.errorResult "FunctionsHttpError" "boom") =
      [.updateRow .processing none, .invokeCreateStory,
        .updateRow .failed
          (some (hardErrorMessage (.errorResult "FunctionsHttpError" "boom")))] ∧
    (startStoryGeneration
        (.errorResult "FunctionsHttpError" "boom")).count .invokeCreateStory = 1 ∧
    ((startStoryGeneration (.errorResult "FunctionsHttpError" "boom")).foldl
        applyAction ⟨"r1", "u1", .queued, 600000, none, false, none⟩).status =
      .failed ∧
    ((startStoryGeneration (.errorResult "FunctionsHttpError" "boom")).foldl
        applyAction ⟨"r1", "u1", .queued, 600000, none, false, none⟩).error_message =
      some (hardErrorMessage (.errorResult "FunctionsHttpError" "boom")) ∧
    viewShowsFailure
      ((startStoryGeneration (.errorResult "FunctionsHttpError" "boom")).foldl
        applyAction ⟨"r1", "u1", .queued, 600000, none, false, none⟩) = true :=
  hard_error_writes_failed (.errorResult "FunctionsHttpError" "boom")
    ⟨"r1", "u1", .queued, 600000, none, false, none⟩ (by decide)

/-! ## Claims about the tracked view's shape -/

/-- A single optimistic insert leaves exactly one entry with the inserted
id, whatever the prior view: the prepended placeholder matches, and the
filter has removed every other match. -/
theorem trackNewRequest_single (requestId : String) (prev : List ViewEntry) :
    (trackNewRequest requestId prev).countP (fun e => e.rid == requestId) = 1 := by
  unfold trackNewRequest
  rw [List.countP_cons]
  have hz : (prev.filter fun e => decide ¬(e.rid = requestId)).countP
      (fun e => e.rid == requestId) = 0 := by
    rw [List.countP_eq_zero]
    intro e he
    have hne := of_decide_eq_true (List.mem_filter.mp he).2
    simpa [beq_iff_eq] using hne
  simp [hz, ViewEntry.rid]

/-- C4: calling `trackNewRequest` twice with the same request id leaves
exactly one entry for that id in the tracked view, for every prior state
of the view — the second call's filter removes the entry the first call
inserted before prepending its own. -/
theorem trackNewRequest_no_duplicate (requestId : String)
    (prev : List ViewEntry) :
    (trackNewRequest requestId (trackNewRequest requestId prev)).countP
      (fun e => e.rid == requestId) = 1 :=
  trackNewRequest_single requestId (trackNewRequest requestId prev)

/-- C9: when the remote delete fails, `handleCancelRequest` surfaces a
blocking alert and leaves the tracked view exactly as it was; the local
removal happens only in the success branch, after which no entry with
the cancelled id remains. -/
theorem cancelRequest_error_surfaced (prev : List ViewEntry)
    (requestId msg : String) :
    (handleCancelRequest prev requestId (some msg)).view = prev ∧
    (handleCancelRequest prev requestId (some msg)).alert.isSome = true ∧
    (handleCancelRequest prev requestId none).alert = none ∧
    (handleCancelRequest prev requestId none).view.countP
      (fun e => e.rid == requestId) = 0 := by
  refine ⟨rfl, rfl, rfl, ?_⟩
  rw [List.countP_eq_zero]
  intro e he
  have hne := of_decide_eq_true (List.mem_filter.mp he).2
  simpa [beq_iff_eq] using hne

/-! ## The at-most-one-entry-per-id invariant -/

/-- The ids of the tracked view, as seen by the duplicate filters. -/
def viewIds (v : List ViewEntry) : List String := v.map ViewEntry.rid

/-- Filtering the view only removes entries, so distinctness of ids
survives. -/
theorem viewIds_filter_nodup {v : List ViewEntry} (p : ViewEntry → Bool)
    (hv : (viewIds v).Nodup) : (viewIds (v.filter p)).Nodup :=
  List.Sublist.nodup (List.Sublist.map ViewEntry.rid (List.filter_sublist v)) hv

/-- Each tracked-view operation preserves distinctness of ids, given a
well-formed remote input. -/
theorem applyOp_ids_nodup {v : List ViewEntry} (op : TrackerOp)
    (hv : (viewIds v).Nodup) (hop : opWF op = true) :
    (viewIds (applyOp v op)).Nodup := by
  cases op with
  | track requestId =>
      have htail := viewIds_filter_nodup
        (fun e => decide ¬(e.rid = requestId)) hv
      rw [applyOp, trackNewRequest, viewIds, List.map_cons, List.nodup_cons]
      refine ⟨?_, htail⟩
      intro hmem
      obtain ⟨e, he, hide⟩ := List.mem_map.mp hmem
      have hide' : e.rid = requestId := hide
      exact of_decide_eq_true (List.mem_filter.mp he).2 hide'
  | reconcile userId now remote =>
      cases remote with
      | error msg => simp [applyOp, loadPendingRequests, viewIds]
      | ok table =>
          have htable : (table.map StoryRequest.id).Nodup :=
            of_decide_eq_true hop
          have hfilter : ((table.filter fun r =>
              decide (r.user_id = userId ∧ r.status ∈ pendingStatusFilter ∧
                now - visibilityWindowMs ≤ r.created_at)).map
                StoryRequest.id).Nodup :=
            List.Sublist.nodup
              (List.Sublist.map StoryRequest.id (List.filter_sublist table))
              htable
          have hperm :
              ((pendingRequestsQuery userId now table).map StoryRequest.id).Perm
                ((table.filter fun r =>
                  decide (r.user_id = userId ∧ r.status ∈ pendingStatusFilter ∧
                    now - visibilityWindowMs ≤ r.created_at)).map
                  StoryRequest.id) :=
            List.Perm.map StoryRequest.id (List.mergeSort_perm _ newestFirst)
          have hquery := (List.Perm.nodup_iff hperm).mpr hfilter
          simpa [applyOp, loadPendingRequests, viewIds, List.map_map,
            Function.comp, ViewEntry.rid] using hquery
  | cancel requestId deleteError =>
      cases deleteError with
      | some msg => simpa [applyOp, handleCancelRequest] using hv
      | none =>
          exact viewIds_filter_nodup (fun e => decide ¬(e.rid = requestId)) hv

/-- Distinctness of ids is preserved along any operation sequence. -/
theorem foldl_applyOp_ids_nodup (ops : List TrackerOp) :
    ∀ v : List ViewEntry, (viewIds v).Nodup → ops.all opWF = true →
      (viewIds (ops.foldl applyOp v)).Nodup := by
  induction ops with
  | nil => intro v hv _; simpa using hv
  | cons op ops ih =>
      intro v hv hall
      rw [List.all_cons, Bool.and_eq_true] at hall
      exact ih (applyOp v op) (applyOp_ids_nodup op hv hall.1) hall.2

/-- C10: starting from the empty view, every sequence of tracked-view
operations (optimistic inserts, reconciliations against well-formed
remote results, cancellations) yields a view whose entries carry
pairwise-distinct request ids — at most one entry per request id. -/
theorem trackedView_at_most_one_per_id (ops : List TrackerOp)
    (hops : ops.all opWF = true) :
    (viewIds (ops.foldl applyOp [])).Nodup :=
  foldl_applyOp_ids_nodup ops [] (by simp [viewIds]) hops

/-- Witness for C10 on a concrete run: a duplicate optimistic insert, a
successful reconciliation, a cancellation, and a failing
reconciliation. -/
theorem trackedView_at_most_one_per_id_witness :
    (viewIds (([.track "a", .track "a",
        .reconcile "u1" 600000
          (.ok [⟨"b", "u1", .queued, 600000, none, false, none⟩,
                ⟨"c", "u1", .generating_text, 500000, none, false, none⟩]),
        .cancel "b" none,
        .reconcile "u1" 700000 (.error "network error")] :
      List TrackerOp).foldl applyOp [])).Nodup :=
  trackedView_at_most_one_per_id
    [.track "a", .track "a",
      .reconcile "u1" 600000
        (.ok [⟨"b", "u1", .queued, 600000, none, false, none⟩,
              ⟨"c", "u1", .generating_text, 500000, none, false, none⟩]),
      .cancel "b" none,
      .reconcile "u1" 700000 (.error "network error")] (by decide)

end Traumfunke
